import Mathlib

/-!
Verification of the IVF/VP9 screen-capture writer in src/src/main_lvsc.cpp.

The development shallowly embeds the file-writing core of the program:
bytes are natural numbers below 256, the output file is a list of bytes
together with a current file position, and each C routine that touches
the file becomes a Lean function on that state. The colour-space
converter is embedded with signed truncating division (Int.tdiv),
matching C semantics for ssize_t arithmetic.
-/

/-- C routine clamp: uint8_t clamp(ssize_t x) returns max(min(x, 255), 0). -/
def clamp (x : Int) : Nat := (max (min x 255) 0).toNat

/-- C routine mem_put_le16: stores the low 16 bits of val least-significant
byte first. The program only passes nonnegative values. -/
def mem_put_le16 (val : Nat) : List Nat :=
  [val % 256, val / 256 % 256]

/-- C routine mem_put_le32: stores the low 32 bits of val least-significant
byte first. The program only passes nonnegative values. -/
def mem_put_le32 (val : Nat) : List Nat :=
  [val % 256, val / 256 % 256, val / 65536 % 256, val / 16777216 % 256]

/-- Constant VP9_FOURCC = 0x30395056. -/
def VP9_FOURCC : Nat := 0x30395056

/-- Constant FPS_NUMERATOR = 1. -/
def FPS_NUMERATOR : Nat := 1

/-- Constant FPS_DENOMINATOR = 5. -/
def FPS_DENOMINATOR : Nat := 5

/-- Constant KEYFRAME_INTERVAL = 10 (used in a signed modulo, hence Int). -/
def KEYFRAME_INTERVAL : Int := 10

/-- The file-visible state of an IVFVPX9Writer: the bytes of the output
file, the current stdio position, and the fields of the struct that the
file-writing routines read or write. -/
structure WriterState where
  fileBytes : List Nat
  filePos : Nat
  width : Nat
  height : Nat
  frames_written : Nat
  frames_encoded : Nat
deriving DecidableEq, Repr

/-- Effect of fwrite at a seek position: overwrite bytes of the file
starting at pos, extending the file at the end. Every write the program
performs has pos at most the file length. -/
def writeBytes (file : List Nat) (pos : Nat) (data : List Nat) : List Nat :=
  file.take pos ++ data ++ file.drop (pos + data.length)

/-- The 32 bytes assembled on the stack by write_file_header, in source
order: magic "DKIF", version 0, header size 32, fourcc, width, height,
rate (FPS_DENOMINATOR), scale (FPS_NUMERATOR), frame count, unused 0. -/
def headerBytes (width height frames_written : Nat) : List Nat :=
  [68, 75, 73, 70] ++
  mem_put_le16 0 ++
  mem_put_le16 32 ++
  mem_put_le32 VP9_FOURCC ++
  mem_put_le16 width ++
  mem_put_le16 height ++
  mem_put_le32 FPS_DENOMINATOR ++
  mem_put_le32 FPS_NUMERATOR ++
  mem_put_le32 frames_written ++
  mem_put_le32 0

/-- C member function write_file_header: remember the position (ftell),
rewind, fwrite the 32 header bytes at offset 0, and seek back to the
remembered position if it was at least 32 (otherwise the position is
left where fwrite put it, namely 32). -/
def write_file_header (s : WriterState) : WriterState :=
  { s with
    fileBytes := writeBytes s.fileBytes 0
      (headerBytes s.width s.height s.frames_written),
    filePos := if 32 ≤ s.filePos then s.filePos else 32 }

/-- C member function write_ivf_frame_header: the 12 bytes written before
a frame payload: payload size, pts low 32 bits, pts high 32 bits, each
little-endian. The program passes nonnegative pts values. -/
def write_ivf_frame_header (pts : Nat) (frame_size : Nat) : List Nat :=
  mem_put_le32 frame_size ++
  mem_put_le32 (pts % 4294967296) ++
  mem_put_le32 (pts / 4294967296)

/-- C member function vpx_video_writer_write_frame (success path): write
the 12-byte frame header then the payload at the current position, and
increment frames_written. -/
def vpx_video_writer_write_frame (s : WriterState) (buffer : List Nat)
    (pts : Nat) : WriterState :=
  { s with
    fileBytes := writeBytes s.fileBytes s.filePos
      (write_ivf_frame_header pts buffer.length ++ buffer),
    filePos := s.filePos + (12 + buffer.length),
    frames_written := s.frames_written + 1 }

/-- File-visible effect of the IVFVPX9Writer constructor: a freshly opened
empty file, frame counters zero, then write_file_header. -/
def initWriter (width height : Nat) : WriterState :=
  write_file_header
    { fileBytes := [], filePos := 0, width := width, height := height,
      frames_written := 0, frames_encoded := 0 }

/-- The frame-count field of the stream header: the four bytes at
offset 24 of the file. -/
def frameCountField (file : List Nat) : List Nat :=
  (file.drop 24).take 4

/-- Luma formula from update_image: y = (66r + 129g + 25b + 128) / 256 + 16
in ssize_t arithmetic, then clamp. -/
def yuvY (r g b : Nat) : Nat :=
  clamp (Int.tdiv (66 * (r : Int) + 129 * (g : Int) + 25 * (b : Int) + 128) 256 + 16)

/-- Chroma U formula from update_image:
u = (-38r - 74g + 112b + 128) / 256 + 128 in ssize_t arithmetic, then clamp. -/
def yuvU (r g b : Nat) : Nat :=
  clamp (Int.tdiv (-38 * (r : Int) - 74 * (g : Int) + 112 * (b : Int) + 128) 256 + 128)

/-- Chroma V formula from update_image:
v = (112r - 94g - 18b + 128) / 256 + 128 in ssize_t arithmetic, then clamp. -/
def yuvV (r g b : Nat) : Nat :=
  clamp (Int.tdiv (112 * (r : Int) - 94 * (g : Int) - 18 * (b : Int) + 128) 256 + 128)

/-- The luma plane written by update_image: for each row y below height and
column x below width, in order, the luma of the RGB triple at byte offset
(y * width + x) * 3 of the capture buffer. -/
def lumaPlane (buffer : List Nat) (width height : Nat) : List Nat :=
  ((List.range height).map (fun y =>
    (List.range width).map (fun x =>
      let o := (y * width + x) * 3
      yuvY (buffer.getD o 0) (buffer.getD (o + 1) 0) (buffer.getD (o + 2) 0)))).flatten

/-- The U plane written by update_image: rows y = 0, 2, 4, ... below height
and columns x = 0, 2, 4, ... below width (point subsampling). -/
def uPlane (buffer : List Nat) (width height : Nat) : List Nat :=
  ((List.range ((height + 1) / 2)).map (fun i =>
    (List.range ((width + 1) / 2)).map (fun j =>
      let o := ((2 * i) * width + 2 * j) * 3
      yuvU (buffer.getD o 0) (buffer.getD (o + 1) 0) (buffer.getD (o + 2) 0)))).flatten

/-- The V plane written by update_image, sampled like the U plane. -/
def vPlane (buffer : List Nat) (width height : Nat) : List Nat :=
  ((List.range ((height + 1) / 2)).map (fun i =>
    (List.range ((width + 1) / 2)).map (fun j =>
      let o := ((2 * i) * width + 2 * j) * 3
      yuvV (buffer.getD o 0) (buffer.getD (o + 1) 0) (buffer.getD (o + 2) 0)))).flatten

/-- C member function update_image: the three planes it fills, as lists in
write order. -/
def update_image (buffer : List Nat) (width height : Nat) :
    List Nat × List Nat × List Nat :=
  (lumaPlane buffer width height, uPlane buffer width height,
   vPlane buffer width height)

/-- A capture buffer of width 4, height 2, every pixel pure red (255,0,0). -/
def redBuffer : List Nat := (List.replicate 8 [255, 0, 0]).flatten

/-- Frame index chosen by encode_frame: frames_encoded for a live
submission, the sentinel -1 for a flush submission. -/
def submissionIndex (flush : Bool) (frames_encoded : Nat) : Int :=
  if flush then -1 else (frames_encoded : Int)

/-- Keyframe flag chosen by encode_frame: set exactly when
frame_index % KEYFRAME_INTERVAL == 0 under the C truncating signed
remainder, here Int.tmod. -/
def submissionFlag (flush : Bool) (frames_encoded : Nat) : Bool :=
  Int.tmod (submissionIndex flush frames_encoded) KEYFRAME_INTERVAL == 0

/-- Image argument chosen by encode_frame: the planar image for a live
submission, null for a flush submission. -/
def submissionImage {α : Type} (flush : Bool) (img : α) : Option α :=
  if flush then none else some img

/-- The force-keyframe flags produced by a sequence of encode_frame calls
(an entry is true for a flush submission), starting from a given
frames_encoded counter: a live submission uses the current counter as its
frame index and increments it; a flush submission leaves it unchanged. -/
def encodeFlags (subs : List Bool) (frames_encoded : Nat) : List Bool :=
  match subs with
  | [] => []
  | flush :: rest =>
    submissionFlag flush frames_encoded ::
      encodeFlags rest (if flush then frames_encoded else frames_encoded + 1)

/-- An opaque compressed packet produced by the external encoder: payload
bytes and presentation timestamp. -/
structure EncPacket where
  payload : List Nat
  pts : Nat
deriving DecidableEq, Repr

/-- The packet loop of encode_frame: every packet the encoder returns is
written out with vpx_video_writer_write_frame. -/
def writePackets (s : WriterState) (pkts : List EncPacket) : WriterState :=
  pkts.foldl (fun st p => vpx_video_writer_write_frame st p.payload p.pts) s

/-- One live encode_frame call against the abstract external encoder of
spec section 6: the encoder holds a lookahead queue; frames_encoded is
incremented, the submitted frame joins the queue as one eventual packet,
and the encoder releases the first emit queued packets (how many is
opaque to the program), which the call writes out in order. -/
def encodeLive (s : WriterState) (q : List EncPacket) (pkt : EncPacket)
    (emit : Nat) : WriterState × List EncPacket :=
  let s1 := { s with frames_encoded := s.frames_encoded + 1 }
  let q1 := q ++ [pkt]
  (writePackets s1 (q1.take emit), q1.drop emit)

/-- One flush encode_frame call: no frame joins the queue; the encoder
releases the first emit queued packets. The boolean is got_pkts, true
exactly when some packet was released. -/
def encodeFlush (s : WriterState) (q : List EncPacket) (emit : Nat) :
    (WriterState × List EncPacket) × Bool :=
  ((writePackets s (q.take emit), q.drop emit), !(q.take emit).isEmpty)

/-- The while loop in IVFVPX9Writer.flush: repeat flush submissions until
one returns no packet. The schedule lists how many packets the encoder
releases on successive flush calls. -/
def drainLoop (s : WriterState) (q : List EncPacket) :
    List Nat → WriterState × List EncPacket
  | [] => (s, q)
  | n :: rest =>
    let step := encodeFlush s q n
    if step.2 then drainLoop step.1.1 step.1.2 rest else step.1

/-- IVFVPX9Writer.flush: write_file_header, then the drain loop, then
fflush (no file-visible effect in the model). -/
def flushWriter (s : WriterState) (q : List EncPacket) (sched : List Nat) :
    WriterState × List EncPacket :=
  drainLoop (write_file_header s) q sched

/-- The live phase of a capture session: each entry of frames is the packet
the encoder will eventually emit for that submitted frame, paired with how
many packets the encoder chooses to release on that call. -/
def runLive (s : WriterState) (q : List EncPacket) :
    List (EncPacket × Nat) → WriterState × List EncPacket
  | [] => (s, q)
  | (pkt, emit) :: rest =>
    let step := encodeLive s q pkt emit
    runLive step.1 step.2 rest

/-- A whole session as main shuts it down: initialize the writer, encode
the live frames, run the explicit flush from main (encoder release
schedule b), then the flush run by the destructor (schedule c). -/
def session (w h : Nat) (frames : List (EncPacket × Nat)) (b c : List Nat) :
    WriterState :=
  let live := runLive (initWriter w h) [] frames
  let f1 := flushWriter live.1 live.2 b
  (flushWriter f1.1 f1.2 c).1

/-- Append a sequence of (payload, pts) frames with
vpx_video_writer_write_frame. -/
def appendFrames (s : WriterState) : List (List Nat × Nat) → WriterState
  | [] => s
  | (p, pts) :: rest => appendFrames (vpx_video_writer_write_frame s p pts) rest

/-- Initialize the writer, append the given frames, and rewrite the header
once at session end. -/
def writerAfterAppends (w h : Nat) (frames : List (List Nat × Nat)) :
    WriterState :=
  write_file_header (appendFrames (initWriter w h) frames)

/-- Whitespace in the sense of sscanf: space, tab, newline, vertical tab,
form feed, carriage return. -/
def isWS (c : Nat) : Bool :=
  c == 32 || c == 9 || c == 10 || c == 11 || c == 12 || c == 13

/-- ASCII decimal digit. -/
def isDigit (c : Nat) : Bool := 48 ≤ c && c ≤ 57

/-- Value of a digit string. -/
def digitsToNat (ds : List Nat) : Nat :=
  ds.foldl (fun acc d => acc * 10 + (d - 48)) 0

/-- One %d conversion of sscanf: skip whitespace, optional sign, at least
one digit; returns the value and the unconsumed rest, or none on a
matching failure. -/
def scanInt (l : List Nat) : Option (Int × List Nat) :=
  let l1 := l.dropWhile isWS
  match l1 with
  | 45 :: rest =>
    let ds := rest.takeWhile isDigit
    if ds.isEmpty then none
    else some (-(digitsToNat ds : Int), rest.dropWhile isDigit)
  | 43 :: rest =>
    let ds := rest.takeWhile isDigit
    if ds.isEmpty then none
    else some ((digitsToNat ds : Int), rest.dropWhile isDigit)
  | _ =>
    let ds := l1.takeWhile isDigit
    if ds.isEmpty then none
    else some ((digitsToNat ds : Int), l1.dropWhile isDigit)

/-- The call sscanf(buffer, "P6 %d %d %d%n", ...): match the literal
bytes P and 6, then three integer conversions, and report via %n the
number of bytes consumed. Returns none when fewer than three conversions
succeed; in that case the C locals pwidth, pheight, pdepth and chars keep
their indeterminate (uninitialized) values. -/
def sscanfP6 (buffer : List Nat) : Option (Int × Int × Int × Nat) :=
  match buffer with
  | 80 :: 54 :: rest =>
    match scanInt rest with
    | none => none
    | some (w, r1) =>
      match scanInt r1 with
      | none => none
      | some (h, r2) =>
        match scanInt r2 with
        | none => none
        | some (d, r3) => some (w, h, d, buffer.length - r3.length)
  | _ => none

/-- What one capture-loop iteration does about the parsed header. -/
inductive CaptureAction where
  | fatalStop : CaptureAction
  | proceed (dims : Option (Int × Int)) : CaptureAction
deriving DecidableEq, Repr

/-- The iteration body at lines 421 to 427 of the source: sscanf is
called and its return value is never inspected, so the iteration proceeds
in every case; when parsing failed, the width and height it proceeds with
are the indeterminate values of the uninitialized locals, modelled as
none. There is no fatal branch. -/
def captureIteration (buffer : List Nat) : CaptureAction :=
  match sscanfP6 buffer with
  | some (w, h, _, _) => CaptureAction.proceed (some (w, h))
  | none => CaptureAction.proceed none

/-- Writer creation across the capture loop: the writer is created lazily
on the first successful screenshot and never destroyed inside the loop.
Each event records whether take_screenshot succeeded; a failed screenshot
hits the continue and touches nothing. -/
def writerAfterLoop (captures : List Bool) : Option Unit :=
  captures.foldl (fun ws ok => if ok then some () else ws) none

/-- The shutdown path of main, lines 429 to 440: print the frame count by
dereferencing video_stream (a crash when the unique_ptr is null), then
flush the writer, then invoke the remux tool. A normal result records
(flush performed, remux invoked). -/
def shutdownPath (video_stream : Option Unit) : Except String (Bool × Bool) :=
  match video_stream with
  | none =>
    Except.error "null video_stream dereferenced printing frames_encoded"
  | some _ => Except.ok (true, true)

/-! ## Basic facts about the header bytes and file writes -/

theorem headerBytes_explicit (w h c : Nat) :
    headerBytes w h c =
      [68, 75, 73, 70, 0, 0, 32, 0, 86, 80, 57, 48,
       w % 256, w / 256 % 256, h % 256, h / 256 % 256,
       5, 0, 0, 0, 1, 0, 0, 0,
       c % 256, c / 256 % 256, c / 65536 % 256, c / 16777216 % 256,
       0, 0, 0, 0] := rfl

theorem headerBytes_length (w h c : Nat) : (headerBytes w h c).length = 32 := by
  rw [headerBytes_explicit]; rfl

theorem write_file_header_fileBytes (s : WriterState) :
    (write_file_header s).fileBytes =
      headerBytes s.width s.height s.frames_written ++ s.fileBytes.drop 32 := by
  simp [write_file_header, writeBytes, headerBytes_length]

theorem write_file_header_fields (s : WriterState) :
    (write_file_header s).width = s.width ∧
    (write_file_header s).height = s.height ∧
    (write_file_header s).frames_written = s.frames_written ∧
    (write_file_header s).frames_encoded = s.frames_encoded := ⟨rfl, rfl, rfl, rfl⟩

theorem frameCountField_write_file_header (s : WriterState) :
    frameCountField (write_file_header s).fileBytes =
      mem_put_le32 s.frames_written := by
  rw [write_file_header_fileBytes, headerBytes_explicit]
  rfl

theorem write_file_header_length (s : WriterState)
    (h : 32 ≤ s.fileBytes.length) :
    (write_file_header s).fileBytes.length = s.fileBytes.length := by
  rw [write_file_header_fileBytes]
  simp [headerBytes_length]
  omega

theorem initWriter_props (w h : Nat) :
    (initWriter w h).fileBytes = headerBytes w h 0 ∧
    (initWriter w h).fileBytes.length = 32 ∧
    (initWriter w h).filePos = 32 ∧
    (initWriter w h).frames_written = 0 ∧
    (initWriter w h).width = w ∧ (initWriter w h).height = h := by
  refine ⟨?_, ?_, rfl, rfl, rfl, rfl⟩
  · rw [show (initWriter w h).fileBytes
        = writeBytes [] 0 (headerBytes w h 0) from rfl]
    simp [writeBytes]
  · rw [show (initWriter w h).fileBytes
        = writeBytes [] 0 (headerBytes w h 0) from rfl]
    simp [writeBytes, headerBytes_length]

/-! ## One frame append -/

theorem append_step (s : WriterState) (payload : List Nat) (pts : Nat)
    (hpos : s.filePos = s.fileBytes.length) :
    (vpx_video_writer_write_frame s payload pts).fileBytes
        = s.fileBytes ++ (write_ivf_frame_header pts payload.length ++ payload) ∧
    (vpx_video_writer_write_frame s payload pts).fileBytes.length
        = s.fileBytes.length + (12 + payload.length) ∧
    (vpx_video_writer_write_frame s payload pts).filePos
        = (vpx_video_writer_write_frame s payload pts).fileBytes.length ∧
    (vpx_video_writer_write_frame s payload pts).frames_written
        = s.frames_written + 1 ∧
    (vpx_video_writer_write_frame s payload pts).width = s.width ∧
    (vpx_video_writer_write_frame s payload pts).height = s.height := by
  have hdr : (write_ivf_frame_header pts payload.length).length = 12 := rfl
  have hfile : (vpx_video_writer_write_frame s payload pts).fileBytes
      = s.fileBytes ++ (write_ivf_frame_header pts payload.length ++ payload) := by
    show writeBytes s.fileBytes s.filePos _ = _
    rw [writeBytes, hpos, List.take_length]
    rw [List.drop_eq_nil_of_le (by simp)]
    simp
  refine ⟨hfile, ?_, ?_, rfl, rfl, rfl⟩
  · rw [hfile]; simp [hdr]
  · rw [hfile]
    show s.filePos + (12 + payload.length) = _
    rw [hpos]; simp [hdr]

theorem take_append_left {α : Type} (l1 l2 : List α) (n : Nat)
    (h : n ≤ l1.length) : (l1 ++ l2).take n = l1.take n := by
  rw [List.take_append_eq_append_take]
  have h0 : n - l1.length = 0 := by omega
  rw [h0, List.take_zero, List.append_nil]

theorem drop_append_left {α : Type} (l1 l2 : List α) (n : Nat)
    (h : n ≤ l1.length) : (l1 ++ l2).drop n = l1.drop n ++ l2 := by
  rw [List.drop_append_eq_append_drop]
  have h0 : n - l1.length = 0 := by omega
  rw [h0, List.drop_zero]

/-! ## Claims about the header layout and frame appends -/

/-- C2: for every width, height and current frame count, the stream header
written by write_file_header is exactly the 32 bytes at the start of the
file, laid out as 4-byte magic DKIF, 16-bit version 0, 16-bit header size
32, 32-bit fourcc, 16-bit width, 16-bit height, 32-bit rate denominator,
32-bit rate numerator, 32-bit frame count, 32-bit reserved 0, with every
multi-byte field stored least-significant byte first. -/
theorem c2_stream_header_layout (s : WriterState) :
    ((write_file_header s).fileBytes).take 32 =
      [68, 75, 73, 70] ++ mem_put_le16 0 ++ mem_put_le16 32 ++
        mem_put_le32 VP9_FOURCC ++ mem_put_le16 s.width ++
        mem_put_le16 s.height ++ mem_put_le32 FPS_DENOMINATOR ++
        mem_put_le32 FPS_NUMERATOR ++ mem_put_le32 s.frames_written ++
        mem_put_le32 0 ∧
    ((write_file_header s).fileBytes).take 32 =
      [68, 75, 73, 70, 0, 0, 32, 0, 86, 80, 57, 48,
       s.width % 256, s.width / 256 % 256,
       s.height % 256, s.height / 256 % 256,
       5, 0, 0, 0, 1, 0, 0, 0,
       s.frames_written % 256, s.frames_written / 256 % 256,
       s.frames_written / 65536 % 256, s.frames_written / 16777216 % 256,
       0, 0, 0, 0] ∧
    (headerBytes s.width s.height s.frames_written).length = 32 := by
  have h : ((write_file_header s).fileBytes).take 32
      = headerBytes s.width s.height s.frames_written := by
    rw [write_file_header_fileBytes, headerBytes_explicit]
    rfl
  refine ⟨?_, by rw [h, headerBytes_explicit], headerBytes_length _ _ _⟩
  rw [h]; rfl

/-- C3 fails as stated: for the all-red 4 by 2 buffer the claim asserts U
samples of value 76 and V samples of value 238, but the code computes 91
and 240. -/
theorem c3_counterexample :
    uPlane redBuffer 4 2 = [91, 91] ∧ vPlane redBuffer 4 2 = [240, 240] ∧
    ¬ (uPlane redBuffer 4 2 = List.replicate 2 76 ∧
       vPlane redBuffer 4 2 = List.replicate 2 238) := by decide

/-- C3 amended: for the width 4, height 2 all-red buffer, update_image
fills all 8 luma samples with 82, both samples of the 2 by 1 U plane
with 91 and both samples of the 2 by 1 V plane with 240, by the integer
formulas with signed truncating division. -/
theorem c3_red_conversion :
    update_image redBuffer 4 2 =
      (List.replicate 8 82, List.replicate 2 91, List.replicate 2 240) := by
  decide

/-- C1 fails as stated: after appending one frame to a fresh writer the
in-memory count is 1 but the on-disk frame-count field still holds 0, so
the append did not rewrite the stream header. -/
theorem c1_counterexample :
    (vpx_video_writer_write_frame (initWriter 4 2) [7] 0).frames_written = 1 ∧
    frameCountField
        (vpx_video_writer_write_frame (initWriter 4 2) [7] 0).fileBytes
      = mem_put_le32 0 ∧
    frameCountField
        (vpx_video_writer_write_frame (initWriter 4 2) [7] 0).fileBytes
      ≠ mem_put_le32 1 := by decide

/-- C1 amended: every append writes the 12-byte frame-record header
(payload size, pts low half, pts high half, each 32-bit little-endian)
followed by the payload bytes at end-of-file, increments the in-memory
frame count and leaves the file position at end-of-file; it rewrites no
header byte, so the on-disk frame-count field is unchanged by the append
and is only rewritten by write_file_header at initialization and flush. -/
theorem c1_append_effect (s : WriterState) (payload : List Nat) (pts : Nat)
    (hpos : s.filePos = s.fileBytes.length)
    (hlen : 32 ≤ s.fileBytes.length) :
    (vpx_video_writer_write_frame s payload pts).fileBytes
        = s.fileBytes ++
            (mem_put_le32 payload.length ++ mem_put_le32 (pts % 4294967296) ++
              mem_put_le32 (pts / 4294967296) ++ payload) ∧
    (vpx_video_writer_write_frame s payload pts).frames_written
        = s.frames_written + 1 ∧
    (vpx_video_writer_write_frame s payload pts).filePos
        = (vpx_video_writer_write_frame s payload pts).fileBytes.length ∧
    (vpx_video_writer_write_frame s payload pts).fileBytes.take 32
        = s.fileBytes.take 32 ∧
    frameCountField (vpx_video_writer_write_frame s payload pts).fileBytes
        = frameCountField s.fileBytes := by
  obtain ⟨hfile, hlen2, hpos2, hfw, _, _⟩ := append_step s payload pts hpos
  refine ⟨?_, hfw, hpos2, ?_, ?_⟩
  · rw [hfile, write_ivf_frame_header]
  · rw [hfile, take_append_left _ _ 32 hlen]
  · rw [hfile]
    unfold frameCountField
    rw [drop_append_left _ _ 24 (by omega)]
    rw [take_append_left _ _ 4 (by simp only [List.length_drop]; omega)]

theorem c1_append_effect_witness :
    (initWriter 4 2).filePos = (initWriter 4 2).fileBytes.length ∧
    32 ≤ (initWriter 4 2).fileBytes.length ∧
    (vpx_video_writer_write_frame (initWriter 4 2) [7] 0).frames_written
      = (initWriter 4 2).frames_written + 1 :=
  ⟨by decide, by decide,
    (c1_append_effect (initWriter 4 2) [7] 0 (by decide) (by decide)).2.1⟩

/-- C9: rewriting the stream header with unchanged width, height and rate
changes no byte outside the 32-byte header region, changes within the
header only the 4-byte frame-count field at offset 24, never alters
previously written frame-record bytes, and restores the prior file
position whenever that position was at or past byte 32. -/
theorem c9_header_rewrite (w h c1 c2 e : Nat) (tail : List Nat) (pos : Nat)
    (hpos : 32 ≤ pos) :
    (write_file_header
        ⟨headerBytes w h c1 ++ tail, pos, w, h, c2, e⟩).fileBytes
      = headerBytes w h c2 ++ tail ∧
    (headerBytes w h c2).take 24 = (headerBytes w h c1).take 24 ∧
    (headerBytes w h c2).drop 28 = (headerBytes w h c1).drop 28 ∧
    frameCountField (write_file_header
        ⟨headerBytes w h c1 ++ tail, pos, w, h, c2, e⟩).fileBytes
      = mem_put_le32 c2 ∧
    (write_file_header
        ⟨headerBytes w h c1 ++ tail, pos, w, h, c2, e⟩).fileBytes.drop 32
      = (headerBytes w h c1 ++ tail).drop 32 ∧
    (write_file_header
        ⟨headerBytes w h c1 ++ tail, pos, w, h, c2, e⟩).filePos = pos := by
  have hdrop : (headerBytes w h c1 ++ tail).drop 32 = tail := by
    rw [show (32 : Nat) = (headerBytes w h c1).length
          from (headerBytes_length w h c1).symm,
        List.drop_left]
  have hfile : (write_file_header
      ⟨headerBytes w h c1 ++ tail, pos, w, h, c2, e⟩).fileBytes
      = headerBytes w h c2 ++ tail := by
    rw [write_file_header_fileBytes]
    show headerBytes w h c2 ++ (headerBytes w h c1 ++ tail).drop 32 = _
    rw [hdrop]
  have hdrop2 : (headerBytes w h c2 ++ tail).drop 32 = tail := by
    rw [show (32 : Nat) = (headerBytes w h c2).length
          from (headerBytes_length w h c2).symm,
        List.drop_left]
  refine ⟨hfile, ?_, ?_, ?_, ?_, ?_⟩
  · rw [headerBytes_explicit w h c1, headerBytes_explicit w h c2]; rfl
  · rw [headerBytes_explicit w h c1, headerBytes_explicit w h c2]; rfl
  · rw [hfile]
    unfold frameCountField
    rw [headerBytes_explicit]
    rfl
  · rw [hfile, hdrop, hdrop2]
  · show (if 32 ≤ pos then pos else 32) = pos
    simp [hpos]

theorem c9_header_rewrite_witness :
    32 ≤ 35 ∧
    (write_file_header
        ⟨headerBytes 1 1 0 ++ [1, 2, 3], 35, 1, 1, 5, 0⟩).fileBytes
      = headerBytes 1 1 5 ++ [1, 2, 3] :=
  ⟨by decide, (c9_header_rewrite 1 1 0 5 0 [1, 2, 3] 35 (by decide)).1⟩

/-! ## Keyframe cadence -/

theorem tmod_coe (m k : Nat) :
    Int.tmod (m : Int) (k : Int) = ((m % k : Nat) : Int) := rfl

theorem submissionFlag_false (n : Nat) :
    submissionFlag false n = decide (n % 10 = 0) := by
  have h1 : submissionFlag false n
      = (((n % 10 : Nat) : Int) == (0 : Int)) := rfl
  rw [h1]
  by_cases h : n % 10 = 0
  · simp [h]
  · simp [h, Int.natCast_eq_zero]
    omega

theorem submissionFlag_true (n : Nat) : submissionFlag true n = false := rfl

theorem encodeFlags_getD (subs : List Bool) (n k : Nat)
    (hk : k < subs.length) :
    (encodeFlags subs n).getD k false =
      submissionFlag (subs.getD k true) (n + (subs.take k).count false) := by
  induction subs generalizing n k with
  | nil => simp at hk
  | cons f rest ih =>
    cases k with
    | zero => simp [encodeFlags]
    | succ k =>
      have hk2 : k < rest.length := by simpa using hk
      show (submissionFlag f n ::
          encodeFlags rest (if f then n else n + 1)).getD (k + 1) false = _
      rw [List.getD_cons_succ, ih _ k hk2, List.getD_cons_succ]
      congr 1
      cases f
      · simp [List.count_cons]
        omega
      · simp [List.count_cons]

/-- C4: in any session submitting at least 10 live frames to encode_frame,
the force-keyframe flag is passed exactly on the submissions whose live
frame index (the frames_encoded counter, which counts the prior live
submissions) is a multiple of 10, and on no other submission, flush
submissions included. -/
theorem c4_keyframe_cadence (subs : List Bool) (_hten : 10 ≤ subs.count false)
    (k : Nat) (hk : k < subs.length) :
    (subs.getD k true = false →
      ((encodeFlags subs 0).getD k false = true ↔
        (subs.take k).count false % 10 = 0)) ∧
    (subs.getD k true = true →
      (encodeFlags subs 0).getD k false = false) := by
  constructor
  · intro hlive
    rw [encodeFlags_getD subs 0 k hk, hlive, submissionFlag_false]
    simp
  · intro hflush
    rw [encodeFlags_getD subs 0 k hk, hflush, submissionFlag_true]

theorem c4_keyframe_cadence_witness :
    10 ≤ (List.replicate 10 false).count false ∧
    0 < (List.replicate 10 false).length ∧
    (((List.replicate 10 false).getD 0 true = false →
      ((encodeFlags (List.replicate 10 false) 0).getD 0 false = true ↔
        ((List.replicate 10 false).take 0).count false % 10 = 0)) ∧
     ((List.replicate 10 false).getD 0 true = true →
      (encodeFlags (List.replicate 10 false) 0).getD 0 false = false)) :=
  ⟨by decide, by decide,
    c4_keyframe_cadence (List.replicate 10 false) (by decide) 0 (by decide)⟩

/-- C10: a flush submission passes the sentinel frame index -1 and a null
image to the encoder and never sets the force-keyframe flag, because the
truncating signed remainder of -1 by KEYFRAME_INTERVAL is -1, not 0; only
live frames can be forced keyframes. -/
theorem c10_flush_never_keyframe :
    (∀ n : Nat, submissionFlag true n = false) ∧
    (∀ n : Nat, submissionIndex true n = -1) ∧
    Int.tmod (-1) KEYFRAME_INTERVAL = -1 ∧
    (∀ img : Nat, submissionImage true img = none) :=
  ⟨fun n => submissionFlag_true n, fun _ => rfl, by decide, fun _ => rfl⟩

/-! ## Round trip accounting -/

theorem appendFrames_props (frames : List (List Nat × Nat)) (s : WriterState)
    (hpos : s.filePos = s.fileBytes.length) :
    (appendFrames s frames).fileBytes.length
        = s.fileBytes.length + (frames.map (fun f => 12 + f.1.length)).sum ∧
    (appendFrames s frames).filePos
        = (appendFrames s frames).fileBytes.length ∧
    (appendFrames s frames).frames_written
        = s.frames_written + frames.length := by
  induction frames generalizing s with
  | nil =>
    exact ⟨by simp [appendFrames], by simp [appendFrames, hpos],
      by simp [appendFrames]⟩
  | cons f rest ih =>
    obtain ⟨p, pts⟩ := f
    obtain ⟨h1, h2, h3, h4, _, _⟩ := append_step s p pts hpos
    obtain ⟨g1, g2, g3⟩ := ih (vpx_video_writer_write_frame s p pts) h3
    refine ⟨?_, g2, ?_⟩
    · show (appendFrames (vpx_video_writer_write_frame s p pts) rest).fileBytes.length = _
      rw [g1, h2]
      simp [List.sum_cons]
      omega
    · show (appendFrames (vpx_video_writer_write_frame s p pts) rest).frames_written = _
      rw [g3, h4]
      simp [List.length_cons]
      omega

/-- C5: after initializing the writer, appending N frames with payload
sizes s_1 .. s_N, and rewriting the header at session end, the file
length is 32 plus the sum over i of 12 + s_i, and the frame-count field
at offset 24 of the header holds the little-endian encoding of N. -/
theorem c5_round_trip (w h : Nat) (frames : List (List Nat × Nat)) :
    (writerAfterAppends w h frames).fileBytes.length
        = 32 + (frames.map (fun f => 12 + f.1.length)).sum ∧
    frameCountField (writerAfterAppends w h frames).fileBytes
        = mem_put_le32 frames.length ∧
    (writerAfterAppends w h frames).frames_written = frames.length := by
  obtain ⟨i1, i2, i3, i4, _, _⟩ := initWriter_props w h
  obtain ⟨a1, a2, a3⟩ :=
    appendFrames_props frames (initWriter w h) (by rw [i3, i2])
  unfold writerAfterAppends
  refine ⟨?_, ?_, ?_⟩
  · rw [write_file_header_length _ (by rw [a1, i2]; omega), a1, i2]
  · rw [frameCountField_write_file_header, a3, i4, Nat.zero_add]
  · rw [(write_file_header_fields _).2.2.1, a3, i4, Nat.zero_add]

/-! ## Session shutdown and the final frame count -/

theorem writePackets_fw (s : WriterState) (pkts : List EncPacket) :
    (writePackets s pkts).frames_written = s.frames_written + pkts.length := by
  induction pkts generalizing s with
  | nil => simp [writePackets]
  | cons p rest ih =>
    show (writePackets (vpx_video_writer_write_frame s p.payload p.pts)
        rest).frames_written = _
    rw [ih]
    have hfw : (vpx_video_writer_write_frame s p.payload p.pts).frames_written
        = s.frames_written + 1 := rfl
    rw [hfw, List.length_cons]
    omega

theorem drain_complete : ∀ (sched : List Nat) (s : WriterState)
    (q : List EncPacket), (∀ n ∈ sched, 1 ≤ n) → q.length ≤ sched.length →
    (drainLoop s q sched).2 = [] ∧
    (drainLoop s q sched).1.frames_written = s.frames_written + q.length := by
  intro sched
  induction sched with
  | nil =>
    intro s q _ h2
    simp only [List.length_nil, Nat.le_zero] at h2
    have hq : q = [] := List.length_eq_zero.mp h2
    subst hq
    exact ⟨rfl, by simp [drainLoop]⟩
  | cons n rest ih =>
    intro s q h1 h2
    cases q with
    | nil =>
      refine ⟨?_, ?_⟩ <;> simp [drainLoop, encodeFlush, writePackets]
    | cons a q2 =>
      have hn : 1 ≤ n := h1 n (List.mem_cons_self n rest)
      obtain ⟨m, rfl⟩ : ∃ m, n = m + 1 := ⟨n - 1, by omega⟩
      have hstep : drainLoop s (a :: q2) ((m + 1) :: rest)
          = drainLoop (writePackets s ((a :: q2).take (m + 1)))
              ((a :: q2).drop (m + 1)) rest := by
        simp [drainLoop, encodeFlush]
      rw [hstep]
      have hlen : (a :: q2).length ≤ rest.length + 1 := by
        simpa using h2
      obtain ⟨ih1, ih2⟩ := ih (writePackets s ((a :: q2).take (m + 1)))
        ((a :: q2).drop (m + 1))
        (fun x hx => h1 x (List.mem_cons_of_mem _ hx))
        (by simp only [List.length_drop, List.length_cons] at *; omega)
      refine ⟨ih1, ?_⟩
      rw [ih2, writePackets_fw]
      simp only [List.length_take, List.length_drop, List.length_cons]
      omega

theorem drainLoop_nil_queue (s : WriterState) (sched : List Nat) :
    drainLoop s [] sched = (s, []) := by
  cases sched with
  | nil => rfl
  | cons n rest => simp [drainLoop, encodeFlush, writePackets]

theorem runLive_inv : ∀ (frames : List (EncPacket × Nat)) (s : WriterState)
    (q : List EncPacket),
    (runLive s q frames).1.frames_written + (runLive s q frames).2.length
      = s.frames_written + q.length + frames.length := by
  intro frames
  induction frames with
  | nil => intro s q; simp [runLive]
  | cons f rest ih =>
    intro s q
    obtain ⟨pkt, emit⟩ := f
    show (runLive (encodeLive s q pkt emit).1 (encodeLive s q pkt emit).2
          rest).1.frames_written +
        (runLive (encodeLive s q pkt emit).1 (encodeLive s q pkt emit).2
          rest).2.length = _
    rw [ih]
    show (writePackets { s with frames_encoded := s.frames_encoded + 1 }
          ((q ++ [pkt]).take emit)).frames_written +
        ((q ++ [pkt]).drop emit).length + rest.length = _
    rw [writePackets_fw]
    simp only [List.length_take, List.length_drop, List.length_append,
      List.length_cons, List.length_nil]
    omega

/-- C6: a session of exactly 10 live frames followed by shutdown (the
explicit flush from main and then the destructor flush) yields a container
whose header frame-count field holds 10, for every choice of per-frame
packet releases and every drain schedule in which each flush submission
yields at least one packet while the lookahead is nonempty. -/
theorem c6_ten_frame_session (w h : Nat) (frames : List (EncPacket × Nat))
    (b c : List Nat) (hn : frames.length = 10)
    (hb1 : ∀ n ∈ b, 1 ≤ n) (hb2 : 10 ≤ b.length) :
    frameCountField (session w h frames b c).fileBytes = mem_put_le32 10 ∧
    (session w h frames b c).frames_written = 10 := by
  have hlive := runLive_inv frames (initWriter w h) []
  have i4 : (initWriter w h).frames_written = 0 := rfl
  rw [i4, hn] at hlive
  simp only [List.length_nil] at hlive
  have hq : (runLive (initWriter w h) [] frames).2.length ≤ b.length := by
    omega
  obtain ⟨d1, d2⟩ := drain_complete b
    (write_file_header (runLive (initWriter w h) [] frames).1)
    (runLive (initWriter w h) [] frames).2 hb1 hq
  have hf1fw : (flushWriter (runLive (initWriter w h) [] frames).1
      (runLive (initWriter w h) [] frames).2 b).1.frames_written = 10 := by
    show (drainLoop (write_file_header (runLive (initWriter w h) [] frames).1)
        (runLive (initWriter w h) [] frames).2 b).1.frames_written = 10
    rw [d2]
    have hsame : (write_file_header
        (runLive (initWriter w h) [] frames).1).frames_written
        = (runLive (initWriter w h) [] frames).1.frames_written := rfl
    rw [hsame]
    omega
  have hq2 : (flushWriter (runLive (initWriter w h) [] frames).1
      (runLive (initWriter w h) [] frames).2 b).2 = [] := d1
  have hses : session w h frames b c
      = (flushWriter
          (flushWriter (runLive (initWriter w h) [] frames).1
            (runLive (initWriter w h) [] frames).2 b).1
          (flushWriter (runLive (initWriter w h) [] frames).1
            (runLive (initWriter w h) [] frames).2 b).2 c).1 := rfl
  rw [hses, hq2]
  have h2nd : flushWriter (flushWriter (runLive (initWriter w h) [] frames).1
        (runLive (initWriter w h) [] frames).2 b).1 [] c
      = (write_file_header (flushWriter
          (runLive (initWriter w h) [] frames).1
          (runLive (initWriter w h) [] frames).2 b).1, []) :=
    drainLoop_nil_queue _ c
  rw [h2nd]
  constructor
  · show frameCountField (write_file_header _).fileBytes = mem_put_le32 10
    rw [frameCountField_write_file_header, hf1fw]
  · show (write_file_header _).frames_written = 10
    rw [(write_file_header_fields _).2.2.1, hf1fw]

theorem c6_ten_frame_session_witness :
    (List.replicate 10 ((⟨[9], 3⟩ : EncPacket), 1)).length = 10 ∧
    (∀ n ∈ List.replicate 10 (1 : Nat), 1 ≤ n) ∧
    10 ≤ (List.replicate 10 (1 : Nat)).length ∧
    frameCountField (session 4 2 (List.replicate 10 (⟨[9], 3⟩, 1))
        (List.replicate 10 1) []).fileBytes = mem_put_le32 10 :=
  ⟨rfl, by decide, by decide,
    (c6_ten_frame_session 4 2 (List.replicate 10 (⟨[9], 3⟩, 1))
      (List.replicate 10 1) [] rfl (by decide) (by decide)).1⟩

/-! ## Header parsing and the empty-session shutdown -/

/-- C7, the code at the failing input: on a capture buffer that does not
begin with a parsable P6 header (here the PNG signature), the iteration
does not terminate the process; it proceeds with the unparsed,
indeterminate dimensions, while on a well-formed header it proceeds with
the parsed ones. -/
theorem c7_unchecked_sscanf :
    captureIteration [137, 80, 78, 71, 13, 10, 26, 10]
      = CaptureAction.proceed none ∧
    captureIteration [80, 54, 32, 52, 32, 50, 32, 50, 53, 53, 10]
      = CaptureAction.proceed (some (4, 2)) ∧
    sscanfP6 [137, 80, 78, 71, 13, 10, 26, 10] = none := by decide

theorem writerAfterLoop_none : ∀ (captures : List Bool),
    (∀ e ∈ captures, e = false) → writerAfterLoop captures = none := by
  intro captures
  induction captures with
  | nil => intro _; rfl
  | cons e rest ih =>
    intro hnone
    have he : e = false := hnone e (List.mem_cons_self e rest)
    subst he
    have hstep : writerAfterLoop (false :: rest) = writerAfterLoop rest := rfl
    rw [hstep]
    exact ih (fun x hx => hnone x (List.mem_cons_of_mem false hx))

/-- C8: when the stop signal arrives before any frame was successfully
captured, the writer was never created, and the shutdown path fails
fatally (a null dereference while printing the frame count): no flush is
performed on a writer and nothing is handed to the remux step. -/
theorem c8_zero_capture_fatal (captures : List Bool)
    (hnone : ∀ e ∈ captures, e = false) :
    writerAfterLoop captures = none ∧
    shutdownPath (writerAfterLoop captures)
      = Except.error "null video_stream dereferenced printing frames_encoded" ∧
    (∀ fl rm : Bool,
      shutdownPath (writerAfterLoop captures) ≠ Except.ok (fl, rm)) := by
  have hw := writerAfterLoop_none captures hnone
  refine ⟨hw, by rw [hw]; rfl, ?_⟩
  intro fl rm
  rw [hw]
  simp [shutdownPath]

theorem c8_zero_capture_fatal_witness :
    (∀ e ∈ [false, false], e = false) ∧
    writerAfterLoop [false, false] = none :=
  ⟨by decide, (c8_zero_capture_fatal [false, false] (by decide)).1⟩
